import Mathlib

set_option maxRecDepth 100000

/-!
# SecretHawk — verification of the detection engine and repository monitor

A shallow embedding, in Lean 4, of the parts of the SecretHawk code base that
the specification's testable properties talk about:

* `redact_secret` (`apps/api/services/redact.py`),
* `is_in_allowlist` (`apps/api/services/redact.py`) and the filtering stage of
  `ScanRunner.scan_directory` (`apps/api/services/runner.py`),
* the regex scanning pipeline of `ScanRunner` — directory walk, per-line
  pattern matching, `_calculate_adjusted_confidence`, `_is_file_allowlisted`,
  and the external gitleaks adapter `_run_gitleaks`,
* GitHub/GitLab webhook handlers and `_verify_github_signature`
  (`apps/api/routers/webhooks.py`), over an executable SHA-256 / HMAC-SHA256,
* the repository monitor: `SchedulerService._should_scan_repository` and
  `RepositoryScanner.scan_repository` / `scan_repository_webhook`.

Modelling conventions, used throughout:

* Python `float` confidence values are modelled as `ℚ`. Every constant in the
  code is a short decimal and every comparison has a wide margin, so rational
  arithmetic decides every comparison the code makes the same way IEEE-754
  doubles do.
* Python byte strings are `List Nat` (each entry `< 256`); text strings are
  Lean `String`s.
* Python regexes used by the scanner are translated, pattern by pattern, into
  a small executable regex syntax `Rx` with a backtracking matcher that
  follows the `re` module's leftmost / greedy / first-alternative semantics,
  including word boundaries and anchors. Patterns compiled with
  `re.IGNORECASE` are translated with case-insensitive literals and classes.
* User-supplied allowlist regexes (arbitrary strings in the code) are
  modelled as `UserPattern`: a validity flag (does `re.compile` succeed?)
  plus the `re.search` truth function when valid; an `re.error` raised by an
  invalid pattern is modelled as `Except.error`.
* Blocking I/O (subprocess runs, `os.path.getsize`, repository storage) is
  modelled by explicit inputs: an outcome value for the gitleaks subprocess,
  a `String → Option Nat` size oracle for the file system (`none` models an
  `OSError`), and explicit state records for the monitor.
-/

/-! ## SHA-256 and HMAC-SHA256 (Python `hashlib.sha256` / `hmac.new`)

An executable big-endian byte-level SHA-256 (FIPS 180-4) over `List Nat`,
with 32-bit words as `Nat` reduced by `% 2^32`, and RFC 2104 HMAC on top of
it. This is the function `hmac.new(secret.encode(), body, hashlib.sha256)`
computes in `_verify_github_signature`. Validated against the standard test
vectors (empty string, `"abc"`, and the RFC 2202-style HMAC vector). -/

/-- Truncation to a 32-bit word. -/
def w32 (n : Nat) : Nat := n % 4294967296

/-- 32-bit right rotation of a word already reduced below `2^32`. -/
def rotr32 (b n : Nat) : Nat := w32 ((n >>> b) ||| (n <<< (32 - b)))

/-- The 64 SHA-256 round constants. -/
def shaK : List Nat :=
  [1116352408, 1899447441, 3049323471, 3921009573, 961987163, 1508970993,
   2453635748, 2870763221, 3624381080, 310598401, 607225278, 1426881987,
   1925078388, 2162078206, 2614888103, 3248222580, 3835390401, 4022224774,
   264347078, 604807628, 770255983, 1249150122, 1555081692, 1996064986,
   2554220882, 2821834349, 2952996808, 3210313671, 3336571891, 3584528711,
   113926993, 338241895, 666307205, 773529912, 1294757372, 1396182291,
   1695183700, 1986661051, 2177026350, 2456956037, 2730485921, 2820302411,
   3259730800, 3345764771, 3516065817, 3600352804, 4094571909, 275423344,
   430227734, 506948616, 659060556, 883997877, 958139571, 1322822218,
   1537002063, 1747873779, 1955562222, 2024104815, 2227730452, 2361852424,
   2428436474, 2756734187, 3204031479, 3329325298]

/-- `k`-byte big-endian encoding of a natural number. -/
def toBytesBE : Nat → Nat → List Nat
  | 0, _ => []
  | k + 1, v => toBytesBE k (v / 256) ++ [v % 256]

/-- SHA-256 message padding: `0x80`, zeros to 56 mod 64, 8-byte bit length. -/
def shaPad (msg : List Nat) : List Nat :=
  msg ++ 0x80 :: List.replicate ((119 - msg.length % 64) % 64) 0
      ++ toBytesBE 8 (8 * msg.length)

/-- Split into 64-byte chunks; the fuel (initialised to the list length in
`chunks64`) only bounds the recursion and is never exhausted. -/
def chunksGo : Nat → List Nat → List (List Nat)
  | 0, _ => []
  | fuel + 1, l => if l.isEmpty then [] else l.take 64 :: chunksGo fuel (l.drop 64)

def chunks64 (l : List Nat) : List (List Nat) := chunksGo l.length l

/-- Big-endian 4-byte groups to 32-bit words. -/
def words32BE : List Nat → List Nat
  | b0 :: b1 :: b2 :: b3 :: rest =>
      (((b0 * 256 + b1) * 256 + b2) * 256 + b3) :: words32BE rest
  | _ => []

def smallSigma0 (x : Nat) : Nat := (rotr32 7 x) ^^^ (rotr32 18 x) ^^^ (x >>> 3)
def smallSigma1 (x : Nat) : Nat := (rotr32 17 x) ^^^ (rotr32 19 x) ^^^ (x >>> 10)
def bigSigma0 (x : Nat) : Nat := (rotr32 2 x) ^^^ (rotr32 13 x) ^^^ (rotr32 22 x)
def bigSigma1 (x : Nat) : Nat := (rotr32 6 x) ^^^ (rotr32 11 x) ^^^ (rotr32 25 x)

/-- SHA-256 choice function; `¬x` is `x ^^^ 0xffffffff` on 32-bit words. -/
def chF (x y z : Nat) : Nat := (x &&& y) ^^^ ((x ^^^ 0xffffffff) &&& z)

def majF (x y z : Nat) : Nat := (x &&& y) ^^^ (x &&& z) ^^^ (y &&& z)

/-- Extend the 16-word schedule to 64 words. -/
def extendW : Nat → List Nat → List Nat
  | 0, w => w
  | k + 1, w =>
      let i := w.length
      let wi := w32 (smallSigma1 (w.getD (i - 2) 0) + w.getD (i - 7) 0
        + smallSigma0 (w.getD (i - 15) 0) + w.getD (i - 16) 0)
      extendW k (w ++ [wi])

/-- The eight 32-bit working variables of the compression function. -/
structure Sha8 where
  a : Nat
  b : Nat
  c : Nat
  d : Nat
  e : Nat
  f : Nat
  g : Nat
  h : Nat

/-- The 64 compression rounds, driven by the zipped constant/schedule lists. -/
def shaRounds : List Nat → List Nat → Sha8 → Sha8
  | k :: ks, w :: ws, st =>
      let t1 := w32 (st.h + bigSigma1 st.e + chF st.e st.f st.g + k + w)
      let t2 := w32 (bigSigma0 st.a + majF st.a st.b st.c)
      shaRounds ks ws
        ⟨w32 (t1 + t2), st.a, st.b, st.c, w32 (st.d + t1), st.e, st.f, st.g⟩
  | _, _, st => st

def shaCompress (st : Sha8) (block : List Nat) : Sha8 :=
  let w := extendW 48 (words32BE block)
  let r := shaRounds shaK w st
  ⟨w32 (st.a + r.a), w32 (st.b + r.b), w32 (st.c + r.c), w32 (st.d + r.d),
   w32 (st.e + r.e), w32 (st.f + r.f), w32 (st.g + r.g), w32 (st.h + r.h)⟩

/-- SHA-256 of a byte string, as 32 bytes. -/
def sha256Bytes (msg : List Nat) : List Nat :=
  let st0 : Sha8 := ⟨1779033703, 3144134277, 1013904242, 2773480762,
    1359893119, 2600822924, 528734635, 1541459225⟩
  let fin := (chunks64 (shaPad msg)).foldl shaCompress st0
  toBytesBE 4 fin.a ++ toBytesBE 4 fin.b ++ toBytesBE 4 fin.c ++ toBytesBE 4 fin.d
    ++ toBytesBE 4 fin.e ++ toBytesBE 4 fin.f ++ toBytesBE 4 fin.g ++ toBytesBE 4 fin.h

/-- Lowercase hex digit. -/
def hexChar (n : Nat) : Char := if n < 10 then Char.ofNat (48 + n) else Char.ofNat (87 + n)

/-- Python's `.hexdigest()`: lowercase hex of each byte in order. -/
def hexDigest (bytes : List Nat) : String :=
  String.mk ((bytes.map (fun b => [hexChar (b / 16), hexChar (b % 16)])).flatten)

/-- RFC 2104 HMAC over SHA-256, as `hmac.new(key, msg, hashlib.sha256)`:
keys longer than the 64-byte block are hashed first, keys are zero-padded to
the block size, and the digest is `H((K ⊕ opad) ∥ H((K ⊕ ipad) ∥ msg))`. -/
def hmacSha256 (key msg : List Nat) : List Nat :=
  let k0 := if 64 < key.length then sha256Bytes key else key
  let kPad := k0 ++ List.replicate (64 - k0.length) 0
  sha256Bytes ((kPad.map (fun b => b ^^^ 0x5c))
    ++ sha256Bytes ((kPad.map (fun b => b ^^^ 0x36)) ++ msg))

/-- UTF-8 encoding of one character (Python `str.encode()`). -/
def utf8Char (c : Char) : List Nat :=
  let n := c.toNat
  if n < 0x80 then [n]
  else if n < 0x800 then [0xc0 + n / 64, 0x80 + n % 64]
  else if n < 0x10000 then [0xe0 + n / 4096, 0x80 + (n / 64) % 64, 0x80 + n % 64]
  else [0xf0 + n / 262144, 0x80 + (n / 4096) % 64, 0x80 + (n / 64) % 64, 0x80 + n % 64]

/-- UTF-8 encoding of a string (Python `str.encode()`). -/
def utf8Encode (s : String) : List Nat := (s.toList.map utf8Char).flatten

/-! ## Webhook endpoints (`apps/api/routers/webhooks.py`) -/

/-- Python string truthiness test for an optional string: `not s` is true for
`None` and for the empty string. -/
def pyFalsyStr : Option String → Bool
  | none => true
  | some s => s.data.isEmpty

/-- `_verify_github_signature(body, signature, secret)`: returns `False` when
the signature header or the stored secret is `None`/empty; otherwise compares
the header against `"sha256=" + hmac.new(secret.encode(), body,
hashlib.sha256).hexdigest()` with `hmac.compare_digest` (timing-safe equality;
its result is the plain equality of the two strings — a non-ASCII header
would raise `TypeError`, which the `except` turns into `False`, and a
non-ASCII header can never equal the ASCII `expected_signature` anyway). -/
def verify_github_signature (body : List Nat) (signature secret : Option String) :
    Bool :=
  if pyFalsyStr signature || pyFalsyStr secret then false
  else
    let expected := "sha256=" ++ hexDigest (hmacSha256 (utf8Encode (secret.getD "")) body)
    signature.getD "" == expected

/-- Python `str.endswith`, computed on the character lists (the builtin
`String.endsWith` is compiled by well-founded recursion over byte positions
and does not reduce in the kernel, so concrete runs could not be evaluated
with it). -/
def strEndsWith (s suffixStr : String) : Bool :=
  List.isSuffixOf suffixStr.data s.data

/-- The fields of a `Repository` record that the webhook handlers read. -/
structure WebhookRepo where
  name : String
  webhookSecret : Option String
deriving DecidableEq, Repr

/-- The result of `json.loads` on the webhook body when it parses: the
handlers read `payload.get("ref", "")` and `payload.get("commits", [])`
(only the length of the commit list is used). -/
structure PushPayload where
  ref : String
  commits : List String
deriving DecidableEq, Repr

/-- The `200`-path outcomes of a webhook handler: event ignored, non-main
branch ignored, or acknowledged with a background scan scheduled. -/
inductive WebhookOk where
  | eventIgnored (eventType : Option String)
  | branchIgnored
  | processed (repoName : String) (commitCount : Nat)
deriving DecidableEq, Repr

/-- Whether a `200` outcome scheduled a background scan task. -/
def WebhookOk.scanScheduled : WebhookOk → Bool
  | .processed _ _ => true
  | _ => false

instance : DecidableEq (Except Nat WebhookOk) := fun a b =>
  match a, b with
  | .error x, .error y =>
      if h : x = y then isTrue (congrArg Except.error h)
      else isFalse (fun hc => h (by cases hc; rfl))
  | .ok x, .ok y =>
      if h : x = y then isTrue (congrArg Except.ok h)
      else isFalse (fun hc => h (by cases hc; rfl))
  | .error _, .ok _ => isFalse (fun hc => by cases hc)
  | .ok _, .error _ => isFalse (fun hc => by cases hc)

/-- The body of the `try` block of `github_webhook`, before its blanket
`except Exception` handler. `.error c` is a raised exception: `404` and `401`
are the `HTTPException`s the handler raises itself; `.error 0` stands for the
`json.JSONDecodeError` escaping `json.loads` when the body is not valid JSON
(modelled by `parsed = none`). -/
def githubWebhookTry (repo : Option WebhookRepo) (body : List Nat)
    (signature eventType : Option String) (parsed : Option PushPayload) :
    Except Nat WebhookOk :=
  match repo with
  | none => .error 404
  | some r =>
    if ¬ verify_github_signature body signature r.webhookSecret then .error 401
    else if eventType ≠ some "push" then .ok (.eventIgnored eventType)
    else
      match parsed with
      | none => .error 0
      | some p =>
        if ¬ (strEndsWith p.ref "/main" || strEndsWith p.ref "/master") then .ok .branchIgnored
        else .ok (.processed r.name p.commits.length)

/-- The full `github_webhook` endpoint: HTTP status plus the `200` payload.
Every exception raised inside the `try` — including the handler's own
`HTTPException(404)` / `HTTPException(401)` — is caught by
`except Exception` and re-raised as `HTTPException(500, "Webhook processing
failed")`, so the response is either `200` or `500`. -/
def githubWebhook (repo : Option WebhookRepo) (body : List Nat)
    (signature eventType : Option String) (parsed : Option PushPayload) :
    Nat × Option WebhookOk :=
  match githubWebhookTry repo body signature eventType parsed with
  | .ok x => (200, some x)
  | .error _ => (500, none)

/-- The `try` body of `gitlab_webhook`: token verification is the plain
(`!=`) comparison of the optional `X-Gitlab-Token` header with the stored
`webhook_secret`. -/
def gitlabWebhookTry (repo : Option WebhookRepo) (token eventType : Option String)
    (parsed : Option PushPayload) : Except Nat WebhookOk :=
  match repo with
  | none => .error 404
  | some r =>
    if token ≠ r.webhookSecret then .error 401
    else if eventType ≠ some "Push Hook" then .ok (.eventIgnored eventType)
    else
      match parsed with
      | none => .error 0
      | some p =>
        if ¬ (strEndsWith p.ref "/main" || strEndsWith p.ref "/master") then .ok .branchIgnored
        else .ok (.processed r.name p.commits.length)

/-- The full `gitlab_webhook` endpoint, with the same blanket `except`. -/
def gitlabWebhook (repo : Option WebhookRepo) (token eventType : Option String)
    (parsed : Option PushPayload) : Nat × Option WebhookOk :=
  match gitlabWebhookTry repo token eventType parsed with
  | .ok x => (200, some x)
  | .error _ => (500, none)

/-! ## Redaction (`apps/api/services/redact.py`, `redact_secret`) -/

/-- `redact_secret` from `services/redact.py`: secrets of length ≤ 8 are
replaced by `*` repeated `len(secret)` times; longer secrets keep their first
four and last four characters with `*` filling the middle
(`f"{secret[:4]}{'*' * (len(secret) - 8)}{secret[-4:]}"`). -/
def redact_secret (secret : String) : String :=
  if secret.length ≤ 8 then
    String.mk (List.replicate secret.length '*')
  else
    String.mk (secret.toList.take 4
      ++ List.replicate (secret.length - 8) '*'
      ++ secret.toList.drop (secret.length - 4))

/-- List-level form of `redact_secret`, used for the idempotence proof. -/
def redactL (l : List Char) : List Char :=
  if l.length ≤ 8 then List.replicate l.length '*'
  else l.take 4 ++ List.replicate (l.length - 8) '*' ++ l.drop (l.length - 4)


/-! ## Character, string and path helpers

ASCII-level translations of the Python primitives the scanner uses
(`str.lower`, `str.strip`, `in`, `str.startswith`/`endswith`,
`os.path.basename`, `os.path.splitext`). The scanner's inputs in every
scenario below are ASCII; Python's Unicode case facts beyond ASCII are not
needed and not modelled. -/

def isAsciiUpper (c : Char) : Bool := 65 ≤ c.toNat && c.toNat ≤ 90
def isAsciiLower (c : Char) : Bool := 97 ≤ c.toNat && c.toNat ≤ 122
def isAsciiDigit (c : Char) : Bool := 48 ≤ c.toNat && c.toNat ≤ 57
def isAsciiLetter (c : Char) : Bool := isAsciiUpper c || isAsciiLower c
def isAsciiAlnum (c : Char) : Bool := isAsciiLetter c || isAsciiDigit c

/-- A regex word character (`\w` / `\b` classification): `[A-Za-z0-9_]`. -/
def isWordChar (c : Char) : Bool := isAsciiAlnum c || c == '_'

/-- Python `\s` and `str.strip` whitespace: space, `\t`, `\n`, `\r`, `\v`, `\f`. -/
def isPySpace (c : Char) : Bool :=
  c == ' ' || c == '\t' || c == '\n' || c == '\r' || c.toNat == 11 || c.toNat == 12

def toLowerCh (c : Char) : Char :=
  if isAsciiUpper c then Char.ofNat (c.toNat + 32) else c

/-- Python `str.lower()`. -/
def strLower (s : String) : String := String.mk (s.data.map toLowerCh)

/-- Python `str.strip()`. -/
def stripStr (l : List Char) : List Char :=
  ((l.dropWhile isPySpace).reverse.dropWhile isPySpace).reverse

/-- `needle` occurs as a contiguous run inside `hay`. -/
def isInfixL (needle hay : List Char) : Bool :=
  needle.isPrefixOf hay ||
    match hay with
    | [] => false
    | _ :: t => isInfixL needle t

/-- Python `needle in hay` on strings. -/
def strContains (hay needle : String) : Bool := isInfixL needle.data hay.data

/-- Python `s.startswith(pre)`. -/
def strStartsWithS (s pre : String) : Bool := pre.data.isPrefixOf s.data

/-- Python `s.endswith(suffix)`. -/
def strEndsWithS (s suffixStr : String) : Bool := List.isSuffixOf suffixStr.data s.data

def afterLastSlash (l : List Char) : List Char :=
  l.foldl (fun acc c => if c == '/' then [] else acc ++ [c]) []

/-- `os.path.basename` (posix). -/
def baseName (p : String) : String := String.mk (afterLastSlash p.data)

def lastDotIdx (l : List Char) : Option Nat :=
  ((l.enum.filter (fun pr => pr.2 == '.')).map (fun pr => pr.1)).getLast?

/-- The extension component of `os.path.splitext` (posix): everything from
the last `.` of the basename, unless every character before that dot is
itself a dot (so `.env` has no extension but `a.tar.gz` has `.gz`). -/
def splitextExt (p : String) : String :=
  let b := afterLastSlash p.data
  match lastDotIdx b with
  | none => ""
  | some i => if (b.take i).all (fun c => c == '.') then "" else String.mk (b.drop i)

/-! ## A small executable regex engine

`Rx` is the fragment of Python `re` syntax that the scanner's fourteen
built-in patterns, its sixteen default file-allowlist patterns, and the
scorer's false-positive shapes use: character classes, concatenation,
alternation, greedy star, word boundary `\b` and end anchor `$`. The matcher
is a continuation-passing backtracker: alternatives are tried left first and
`star` consumes greedily before yielding, which reproduces `re`'s
leftmost / greedy / first-alternative match discipline; `rxFindIterGo`
reproduces `finditer`'s scan (try each start position left to right, resume
after the end of each non-empty match). The fuel argument only bounds the
recursion for the termination checker; `rxFuel` is far above the worst-case
step count of these near-deterministic patterns on the strings scanned.
A `star` iteration that consumes nothing ends the repetition, as in `re`.
Patterns that `runner.py` compiles with `re.IGNORECASE` are built from
case-insensitive literals (`Rx.chCI`/`Rx.strCI`) and both-case classes. -/

inductive Rx where
  | eps
  | cls (p : Char → Bool)
  | seq (a b : Rx)
  | alt (a b : Rx)
  | star (a : Rx)
  | wordB
  | lineEnd

/-- `\b`: exactly one side of the position is a word character. -/
def atWordBoundary (prev : Option Char) (s : List Char) : Bool :=
  let l := match prev with
    | none => false
    | some c => isWordChar c
  let r := match s with
    | [] => false
    | c :: _ => isWordChar c
  l != r

def rxRun : Nat → Rx → Option Char → List Char →
    (Option Char → List Char → Option (List Char)) → Option (List Char)
  | 0, _, _, _, _ => none
  | fuel + 1, r, prev, s, k =>
    match r with
    | .eps => k prev s
    | .cls p =>
      match s with
      | [] => none
      | c :: rest => if p c then k (some c) rest else none
    | .seq a b => rxRun fuel a prev s (fun p2 s2 => rxRun fuel b p2 s2 k)
    | .alt a b =>
      match rxRun fuel a prev s k with
      | some res => some res
      | none => rxRun fuel b prev s k
    | .star a =>
      match rxRun fuel a prev s (fun p2 s2 =>
          if s2.length < s.length then rxRun fuel (.star a) p2 s2 k else none) with
      | some res => some res
      | none => k prev s
    | .wordB => if atWordBoundary prev s then k prev s else none
    | .lineEnd => if s.isEmpty then k prev s else none

def rxFuel (s : List Char) : Nat := (s.length + 200) * 300

/-- Length of the match of `r` at the start of `s` (`prev` is the character
before the position, for `\b`), or `none`. -/
def rxMatchLen (r : Rx) (prev : Option Char) (s : List Char) : Option Nat :=
  match rxRun (rxFuel s) r prev s (fun _ rest => some rest) with
  | some rest => some (s.length - rest.length)
  | none => none

/-- Python `re.match(pattern, s)` truth value (anchored at the start). -/
def rxMatchesAt0 (r : Rx) (s : String) : Bool := (rxMatchLen r none s.data).isSome

def rxFindIterGo : Nat → Rx → Option Char → List Char → List (List Char)
  | 0, _, _, _ => []
  | fuel + 1, r, prev, s =>
    match s with
    | [] => []
    | c :: rest =>
      match rxMatchLen r prev s with
      | some L =>
        if L == 0 then rxFindIterGo fuel r (some c) rest
        else s.take L :: rxFindIterGo fuel r (s.take L).getLast? (s.drop L)
      | none => rxFindIterGo fuel r (some c) rest

/-- Python `re.finditer`: the list of matched substrings in order. -/
def rxFindIter (r : Rx) (s : List Char) : List (List Char) :=
  rxFindIterGo s.length r none s

def Rx.ch (c : Char) : Rx := .cls (fun x => x == c)
def Rx.chCI (c : Char) : Rx := .cls (fun x => toLowerCh x == toLowerCh c)
def Rx.strCI (s : String) : Rx := (s.data.map Rx.chCI).foldr Rx.seq .eps
def Rx.strCS (s : String) : Rx := (s.data.map Rx.ch).foldr Rx.seq .eps
def Rx.rep (r : Rx) : Nat → Rx
  | 0 => .eps
  | n + 1 => .seq r (Rx.rep r n)
def Rx.atLeast (r : Rx) (n : Nat) : Rx := .seq (Rx.rep r n) (.star r)
def Rx.opt (r : Rx) : Rx := .alt r .eps
def Rx.plus (r : Rx) : Rx := .seq r (.star r)

/-- Regex `.`: any character except a newline. -/
def Rx.dotAny : Rx := .cls (fun c => c != '\n')

def quoteCh : Char := Char.ofNat 39
def dquoteCh : Char := Char.ofNat 34
def isQuoteCls (c : Char) : Bool := c == quoteCh || c == dquoteCh

/-! ## The fourteen built-in patterns of `ScanRunner._run_regex_scan`

Each is the direct translation of the `re.IGNORECASE`-compiled pattern
string in `runner.py` (`default_patterns`, lines 205–276). Under
`IGNORECASE`, `[0-9A-Z]` matches both cases — hence `isAsciiAlnum` — and
literals are case-insensitive. -/

/-- `[A-Za-z0-9_-]`. -/
def wordDashCls (c : Char) : Bool := isAsciiAlnum c || c == '_' || c == '-'

/-- `[A-Za-z0-9/+=]`. -/
def b64Cls (c : Char) : Bool := isAsciiAlnum c || c == '/' || c == '+' || c == '='

/-- The shared tail `['\x22]?\s*[:=]\s*['\x22]?[A-Za-z0-9_-]\x7b16,\x7d['\x22]?`
of the three generic patterns. -/
def genericTail : Rx :=
  .seq (Rx.opt (.cls isQuoteCls))
    (.seq (.star (.cls isPySpace))
      (.seq (.cls (fun c => c == ':' || c == '='))
        (.seq (.star (.cls isPySpace))
          (.seq (Rx.opt (.cls isQuoteCls))
            (.seq (Rx.atLeast (.cls wordDashCls) 16)
              (Rx.opt (.cls isQuoteCls)))))))

/-- `\bAKIA[0-9A-Z]\x7b16\x7d\b`. -/
def awsAccessKeyRx : Rx :=
  .seq .wordB (.seq (Rx.strCI "AKIA") (.seq (Rx.rep (.cls isAsciiAlnum) 16) .wordB))

/-- `\b[A-Za-z0-9/+=]\x7b40\x7d\b`. -/
def awsSecretKeyRx : Rx :=
  .seq .wordB (.seq (Rx.rep (.cls b64Cls) 40) .wordB)

/-- `\bghp_[A-Za-z0-9]\x7b36\x7d\b`. -/
def githubTokenRx : Rx :=
  .seq .wordB (.seq (Rx.strCI "ghp_") (.seq (Rx.rep (.cls isAsciiAlnum) 36) .wordB))

/-- `\bgithub_pat_[A-Za-z0-9_]\x7b82\x7d\b`. -/
def githubFineGrainedPatRx : Rx :=
  .seq .wordB (.seq (Rx.strCI "github_pat_") (.seq (Rx.rep (.cls isWordChar) 82) .wordB))

/-- `\bsk_live_[A-Za-z0-9]\x7b24\x7d\b`. -/
def stripeSecretKeyRx : Rx :=
  .seq .wordB (.seq (Rx.strCI "sk_live_") (.seq (Rx.rep (.cls isAsciiAlnum) 24) .wordB))

/-- `\bpk_live_[A-Za-z0-9]\x7b24\x7d\b`. -/
def stripePublishableKeyRx : Rx :=
  .seq .wordB (.seq (Rx.strCI "pk_live_") (.seq (Rx.rep (.cls isAsciiAlnum) 24) .wordB))

/-- `\beyJ[A-Za-z0-9_-]*\.[A-Za-z0-9_-]*\.[A-Za-z0-9_-]*\b`. -/
def jwtTokenRx : Rx :=
  .seq .wordB (.seq (Rx.strCI "eyJ")
    (.seq (.star (.cls wordDashCls))
      (.seq (Rx.ch '.')
        (.seq (.star (.cls wordDashCls))
          (.seq (Rx.ch '.')
            (.seq (.star (.cls wordDashCls)) .wordB))))))

/-- `\bxox[baprs]-[A-Za-z0-9-]\x7b8,\x7d\b`. -/
def slackTokenRx : Rx :=
  .seq .wordB (.seq (Rx.strCI "xox")
    (.seq (.cls (fun c =>
        let l := toLowerCh c
        l == 'b' || l == 'a' || l == 'p' || l == 'r' || l == 's'))
      (.seq (Rx.ch '-')
        (.seq (Rx.atLeast (.cls (fun c => isAsciiAlnum c || c == '-')) 8) .wordB))))

/-- `\bAIza[0-9A-Za-z_-]\x7b35\x7d\b`. -/
def googleApiKeyRx : Rx :=
  .seq .wordB (.seq (Rx.strCI "AIza") (.seq (Rx.rep (.cls wordDashCls) 35) .wordB))

/-- `-----BEGIN[A-Z ]+PRIVATE KEY-----`. -/
def privateKeyHeaderRx : Rx :=
  .seq (Rx.strCI "-----BEGIN")
    (.seq (Rx.plus (.cls (fun c => isAsciiLetter c || c == ' ')))
      (Rx.strCI "PRIVATE KEY-----"))

/-- `\b(postgresql|mysql|mongodb)://[^\s'\x22]+\b`. -/
def databaseUrlRx : Rx :=
  .seq .wordB (.seq (.alt (Rx.strCI "postgresql") (.alt (Rx.strCI "mysql") (Rx.strCI "mongodb")))
    (.seq (Rx.strCS "://")
      (.seq (Rx.plus (.cls (fun c => ¬ (isPySpace c || isQuoteCls c)))) .wordB)))

/-- `\b[aA]pi[_-]?[kK]ey…` followed by `genericTail`. -/
def genericApiKeyRx : Rx :=
  .seq .wordB (.seq (Rx.chCI 'a') (.seq (Rx.strCI "pi")
    (.seq (Rx.opt (.cls (fun c => c == '_' || c == '-')))
      (.seq (Rx.chCI 'k') (.seq (Rx.strCI "ey") genericTail)))))

/-- `\b[sS]ecret…` followed by `genericTail`. -/
def genericSecretRx : Rx :=
  .seq .wordB (.seq (Rx.chCI 's') (.seq (Rx.strCI "ecret") genericTail))

/-- `\b[tT]oken…` followed by `genericTail`. -/
def genericTokenRx : Rx :=
  .seq .wordB (.seq (Rx.chCI 't') (.seq (Rx.strCI "oken") genericTail))

/-- One entry of the `default_patterns` dict: rule id, compiled pattern,
severity string, base confidence. -/
structure RegexRule where
  id : String
  rx : Rx
  severity : String
  confidence : ℚ

/-- `default_patterns` of `_run_regex_scan`, in dict insertion order. -/
def default_patterns : List RegexRule :=
  [⟨"aws_access_key", awsAccessKeyRx, "critical", 0.95⟩,
   ⟨"aws_secret_key", awsSecretKeyRx, "critical", 0.6⟩,
   ⟨"github_token", githubTokenRx, "high", 0.95⟩,
   ⟨"github_fine_grained_pat", githubFineGrainedPatRx, "high", 0.95⟩,
   ⟨"stripe_secret_key", stripeSecretKeyRx, "critical", 0.95⟩,
   ⟨"stripe_publishable_key", stripePublishableKeyRx, "medium", 0.9⟩,
   ⟨"jwt_token", jwtTokenRx, "medium", 0.7⟩,
   ⟨"slack_token", slackTokenRx, "high", 0.9⟩,
   ⟨"google_api_key", googleApiKeyRx, "high", 0.9⟩,
   ⟨"private_key_header", privateKeyHeaderRx, "critical", 0.95⟩,
   ⟨"database_url", databaseUrlRx, "critical", 0.85⟩,
   ⟨"generic_api_key", genericApiKeyRx, "medium", 0.5⟩,
   ⟨"generic_secret", genericSecretRx, "medium", 0.5⟩,
   ⟨"generic_token", genericTokenRx, "medium", 0.5⟩]

/-! ## Confidence scoring (`ScanRunner._calculate_adjusted_confidence`) -/

/-- The `false_positive_keywords` set; written here as a list. The loop
multiplies `confidence` by `0.1` once per keyword contained in the match, so
the (unspecified) iteration order of the Python set does not affect the
product. -/
def false_positive_keywords : List String :=
  ["example", "test", "demo", "placeholder", "fake", "dummy", "sample",
   "your_key_here", "insert_key_here", "put_key_here", "replace_with",
   "todo", "fixme", "xxx", "yyy", "zzz", "abc", "123",
   "lorem", "ipsum", "dolor"]

def braceO : Char := Char.ofNat 123
def braceC : Char := Char.ofNat 125

/-- The ten `false_positive_patterns`, applied with `re.match` (anchored) to
the lowercased match: all-x, all-`*`, all-0, all-1, all-lowercase,
all-uppercase, all-digits, `$\x7b…\x7d`, `<…>`, `[…]`. -/
def false_positive_patterns : List Rx :=
  [.seq (Rx.plus (Rx.ch 'x')) .lineEnd,
   .seq (Rx.plus (Rx.ch '*')) .lineEnd,
   .seq (Rx.plus (Rx.ch '0')) .lineEnd,
   .seq (Rx.plus (Rx.ch '1')) .lineEnd,
   .seq (Rx.plus (.cls isAsciiLower)) .lineEnd,
   .seq (Rx.plus (.cls isAsciiUpper)) .lineEnd,
   .seq (Rx.plus (.cls isAsciiDigit)) .lineEnd,
   .seq (Rx.ch '$') (.seq (Rx.ch braceO) (.seq (.star Rx.dotAny) (.seq (Rx.ch braceC) .lineEnd))),
   .seq (Rx.ch '<') (.seq (.star Rx.dotAny) (.seq (Rx.ch '>') .lineEnd)),
   .seq (Rx.ch '[') (.seq (.star Rx.dotAny) (.seq (Rx.ch ']') .lineEnd))]

/-- `ScanRunner._looks_like_base64`: the character-shape regex
`^[A-Za-z0-9+/]*=\x7b0,2\x7d$` plus "at least two of upper/lower/digit
present". -/
def looks_like_base64 (text : String) : Bool :=
  if text.data.isEmpty then false
  else
    let validChars := rxMatchesAt0
      (.seq (.star (.cls b64Cls))
        (.seq (Rx.opt (Rx.ch '=')) (.seq (Rx.opt (Rx.ch '=')) .lineEnd))) text
    if ¬ validChars then false
    else
      let hasUpper := text.data.any isAsciiUpper
      let hasLower := text.data.any isAsciiLower
      let hasDigits := text.data.any isAsciiDigit
      decide (2 ≤ (if hasUpper then 1 else 0) + (if hasLower then 1 else 0)
        + (if hasDigits then (1 : Nat) else 0))

/-- `len(s.split('.'))`: one more than the number of dots. -/
def dotSplitCount (l : List Char) : Nat := (l.filter (fun c => c == '.')).length + 1

/-- `ScanRunner._calculate_adjusted_confidence` (lines 455–535): the
multiplicative penalty chain over the base confidence — placeholder
keywords (×0.1 each), structural false-positive shapes (×0.1 each), the
file-context `elif` chain (×0.5 / ×0.3 / ×0.4 / ×0.1), the line-context
`elif` chain (×0.3 / ×1.1 / ×0.5), the rule-specific validators, and the
final clamp `max(0.0, min(1.0, confidence))`. -/
def calculate_adjusted_confidence (matchStr ruleId filePath lineContext : String)
    (baseConfidence : ℚ) : ℚ :=
  let matchLower := String.mk (stripStr (strLower matchStr).data)
  let c1 := false_positive_keywords.foldl
    (fun c kw => if strContains matchLower kw then c * 0.1 else c) baseConfidence
  let c2 := false_positive_patterns.foldl
    (fun c p => if rxMatchesAt0 p matchLower then c * 0.1 else c) c1
  let fileExt := splitextExt (strLower filePath)
  let filename := baseName (strLower filePath)
  let c3 :=
    if fileExt == ".md" || fileExt == ".txt" || fileExt == ".rst" then c2 * 0.5
    else if filename == "readme.md" || filename == "changelog.md"
        || filename == "contributing.md" then c2 * 0.3
    else if strContains filename "test" || strContains filename "spec" then c2 * 0.4
    else if strEndsWithS filename ".lock" then c2 * 0.1
    else c2
  let lineLower := strLower lineContext
  let c4 :=
    if strContains lineLower "example" || strContains lineLower "demo"
        || strContains lineLower "test" || strContains lineLower "placeholder" then c3 * 0.3
    else if strContains lineLower "const" || strContains lineLower "var"
        || strContains lineLower "let" then c3 * 1.1
    else if strStartsWithS (String.mk (stripStr lineLower.data)) "#" then c3 * 0.5
    else c3
  let c5 :=
    if ruleId == "aws_secret_key" then
      let ca := if ¬ looks_like_base64 matchStr then c4 * 0.3 else c4
      if matchStr.length ≠ 40 then ca * 0.5 else ca
    else if ruleId == "jwt_token" then
      if dotSplitCount matchStr.data ≠ 3 then c4 * 0.2
      else if matchStr.length < 50 then c4 * 0.4
      else c4
    else if ruleId == "generic_api_key" || ruleId == "generic_secret"
        || ruleId == "generic_token" then
      let cg := if matchStr.length < 16 then c4 * 0.3 else c4
      if ¬ (matchStr.data.any isAsciiLetter) || ¬ (matchStr.data.any isAsciiDigit) then
        cg * 0.2
      else cg
    else c4
  max 0 (min 1 c5)

/-! ## Findings, allowlists, file filters -/

/-- A `Finding` (`models/finding.py`), with the fields the engine sets; the
`id`/`created_at` bookkeeping fields (an uuid and a timestamp assigned at
persistence time) are not modelled. -/
structure Finding where
  jobId : String
  filePath : String
  lineNumber : Nat
  secretType : String
  secret : String
  severity : String
  ruleId : String
  confidence : ℚ
deriving DecidableEq, Repr

/-- A user-supplied allowlist regex string, as the code sees it: either it
compiles (`valid = true`) — and then `searchTrue`/`matchTrue` are the truth
values of `re.search` / `re.match` of the compiled pattern on a given
string — or `re.compile` raises `re.error` (`valid = false`). -/
structure UserPattern where
  valid : Bool
  searchTrue : String → Bool
  matchTrue : String → Bool

/-- The sixteen `default_file_patterns` of `ScanRunner._is_file_allowlisted`
(lines 49–66), translated one for one; applied with `re.match`. -/
def default_file_patterns : List Rx :=
  [.seq (.star Rx.dotAny) (.seq (Rx.strCS "/package-lock.json") .lineEnd),
   .seq (.star Rx.dotAny) (.seq (Rx.strCS "/yarn.lock") .lineEnd),
   .seq (.star Rx.dotAny) (.seq (Rx.strCS "/composer.lock") .lineEnd),
   .seq (.star Rx.dotAny) (.seq (Rx.strCS "/Pipfile.lock") .lineEnd),
   .seq (.star Rx.dotAny) (.seq (Rx.strCS "/poetry.lock") .lineEnd),
   .seq (.star Rx.dotAny) (.seq (Rx.strCS "/node_modules/") (.star Rx.dotAny)),
   .seq (.star Rx.dotAny) (.seq (Rx.strCS "/vendor/") (.star Rx.dotAny)),
   .seq (.star Rx.dotAny) (.seq (Rx.strCS "/build/") (.star Rx.dotAny)),
   .seq (.star Rx.dotAny) (.seq (Rx.strCS "/dist/") (.star Rx.dotAny)),
   .seq (.star Rx.dotAny) (.seq (Rx.strCS "/target/") (.star Rx.dotAny)),
   .seq (.star Rx.dotAny) (.seq (Rx.strCS ".zip") .lineEnd),
   .seq (.star Rx.dotAny) (.seq (Rx.strCS ".tar.gz") .lineEnd),
   .seq (.star Rx.dotAny) (.seq (Rx.strCS ".jar") .lineEnd),
   .seq (.star Rx.dotAny) (.seq (Rx.strCS ".war") .lineEnd),
   .seq (.star Rx.dotAny) (.seq (Rx.strCS ".min.js") .lineEnd),
   .seq (.star Rx.dotAny) (.seq (Rx.strCS ".min.css") .lineEnd)]

def backslashCh : Char := Char.ofNat 92

/-- `ScanRunner._is_file_allowlisted`: backslashes are normalised to `/`,
then the default patterns (always valid) and the user's `files` patterns are
tried with `re.match` in order; an invalid user pattern is logged and
skipped (`except re.error: continue`). -/
def is_file_allowlisted (userFilePatterns : List UserPattern) (filePath : String) : Bool :=
  let normalized := String.mk (filePath.data.map
    (fun c => if c == backslashCh then '/' else c))
  default_file_patterns.any (fun r => rxMatchesAt0 r normalized)
  || userFilePatterns.any (fun p => p.valid && p.matchTrue normalized)

/-- The `skip_dirs` set of `ScanRunner._should_skip_directory`. -/
def skipDirs : List String :=
  ["node_modules", "__pycache__", ".git", ".vscode", ".idea",
   "venv", "env", ".env", "build", "dist", "target",
   ".pytest_cache", ".mypy_cache", ".coverage", ".tox",
   "vendor", "third_party", "external", ".venv",
   ".sass-cache", "bower_components", ".nuxt", ".next"]

/-- `ScanRunner._should_skip_directory`. -/
def should_skip_directory (dirname : String) : Bool :=
  skipDirs.contains dirname || strStartsWithS dirname "."

/-- The `skip_extensions` set of `ScanRunner._should_scan_file`. -/
def skipExtensions : List String :=
  [".jpg", ".jpeg", ".png", ".gif", ".bmp", ".svg", ".ico", ".webp",
   ".zip", ".tar", ".gz", ".rar", ".7z", ".bz2", ".xz",
   ".exe", ".dll", ".so", ".dylib", ".a", ".lib",
   ".pdf", ".doc", ".docx", ".xls", ".xlsx", ".ppt", ".pptx",
   ".mp3", ".mp4", ".avi", ".mov", ".wav", ".flac", ".ogg",
   ".pyc", ".pyo", ".class", ".o", ".obj",
   ".woff", ".woff2", ".ttf", ".eot", ".otf",
   ".bin", ".dat", ".db", ".sqlite", ".sqlite3"]

/-- `ScanRunner._should_scan_file(filename)`. Its caller passes the **bare
basename** from `os.walk`, so the size probe
`os.path.getsize(filename if isabs else join(getcwd(), filename))` stats a
path under the process working directory, not the file being scanned. `fs`
is the real file system's size oracle (`none` models `OSError` /
`FileNotFoundError`, which the code swallows, assuming the file scannable);
`cwd` is `os.getcwd()`. -/
def should_scan_file (filename : String) (fs : String → Option Nat) (cwd : String) : Bool :=
  let ext := splitextExt (strLower filename)
  if skipExtensions.contains ext then false
  else
    let path := if strStartsWithS filename "/" then filename else cwd ++ "/" ++ filename
    match fs path with
    | some sz => if 10 * 1024 * 1024 < sz then false else true
    | none => true

/-! ## Per-file scanning and the directory walk -/

/-- Python `content.split('\n')` (`""` splits to `[""]`). -/
def splitOnNl : List Char → List (List Char)
  | [] => [[]]
  | c :: rest =>
    let r := splitOnNl rest
    if c == '\n' then [] :: r
    else
      match r with
      | h :: t => (c :: h) :: t
      | [] => [[c]]

/-- The inner loop of `ScanRunner._scan_file` for one line: every rule's
pattern is run with `finditer`; each match is stripped, dropped when shorter
than 3 characters, scored, dropped below the 0.3 early-reject bar, and
otherwise becomes a `Finding`. `os.path.relpath` on the already-relative
paths used here is the identity and is not modelled separately. -/
def scanLine (allPatterns : List RegexRule) (filePath : String) (lineNo : Nat)
    (line : String) : List Finding :=
  (allPatterns.map (fun rule =>
    (rxFindIter rule.rx line.data).filterMap (fun m =>
      let matchedText := String.mk (stripStr m)
      if matchedText.length < 3 then none
      else
        let adjusted := calculate_adjusted_confidence matchedText rule.id filePath
          line rule.confidence
        if adjusted < 0.3 then none
        else some { jobId := "", filePath := filePath, lineNumber := lineNo,
                    secretType := rule.id, secret := matchedText,
                    severity := rule.severity, ruleId := rule.id,
                    confidence := adjusted }))).flatten

/-- `ScanRunner._scan_file`: split the decoded content on newlines and scan
each line (numbered from 1). Undecodable files return no findings before
reaching this point and are covered by scanning an empty content. -/
def scan_file (filePath content : String) (allPatterns : List RegexRule) :
    List Finding :=
  ((splitOnNl content.data).enum.map (fun pr =>
    scanLine allPatterns filePath (pr.1 + 1) (String.mk pr.2))).flatten

/-- A directory tree as a sibling-chained rose tree (`nilFs` ends a sibling
list), so that the walk below is structural recursion the kernel can
evaluate. `file name content next`: a file entry then its next sibling;
`dir name children next`: a directory entry. File sizes live in the `fs`
oracle keyed by path, matching `os.path.getsize`. -/
inductive FsTree where
  | nilFs
  | file (name content : String) (next : FsTree)
  | dir (name : String) (children : FsTree) (next : FsTree)

/-- The per-file body of `_run_regex_scan`'s walk loop: extension/size
check on the bare name, allowlist check on the joined path, then
`_scan_file`. -/
def fileEntryFindings (up : List UserPattern) (ap : List RegexRule)
    (fs : String → Option Nat) (cwd root name content : String) : List Finding :=
  if ¬ should_scan_file name fs cwd then []
  else
    let fp := root ++ "/" ++ name
    if is_file_allowlisted up fp then []
    else scan_file fp content ap

/-- Files of one directory, in order (`os.walk` yields a directory's files
before descending). -/
def filesPass (up : List UserPattern) (ap : List RegexRule) (fs : String → Option Nat)
    (cwd root : String) : FsTree → List Finding
  | .nilFs => []
  | .file nm content next =>
      fileEntryFindings up ap fs cwd root nm content ++ filesPass up ap fs cwd root next
  | .dir _ _ next => filesPass up ap fs cwd root next

/-- Depth-first descent into subdirectories, with the top-down pruning
`dirs[:] = [d for d in dirs if not self._should_skip_directory(d)]`: a
pruned directory's whole subtree is never visited. -/
def dirsPass (up : List UserPattern) (ap : List RegexRule) (fs : String → Option Nat)
    (cwd : String) : String → FsTree → List Finding
  | _, .nilFs => []
  | root, .file _ _ next => dirsPass up ap fs cwd root next
  | root, .dir d ch next =>
      (if should_skip_directory d then []
       else filesPass up ap fs cwd (root ++ "/" ++ d) ch
         ++ dirsPass up ap fs cwd (root ++ "/" ++ d) ch)
      ++ dirsPass up ap fs cwd root next

/-- `ScanRunner._run_regex_scan`: walk the tree rooted at `directory` (the
top directory itself is never skipped) and collect the per-file findings. -/
def run_regex_scan (up : List UserPattern) (ap : List RegexRule)
    (fs : String → Option Nat) (cwd directory : String) (entries : FsTree) :
    List Finding :=
  filesPass up ap fs cwd directory entries ++ dirsPass up ap fs cwd directory entries

/-! ## The external gitleaks adapter (`ScanRunner._run_gitleaks`) -/

/-- One record of the gitleaks JSON report; each field is `none` when the
key is absent, mirroring the `.get` defaults in the code. -/
structure GitleaksItem where
  file : Option String
  startLine : Option Nat
  ruleID : Option String
  secret : Option String
deriving DecidableEq, Repr

/-- The observable outcomes of the gitleaks subprocess interaction:
the binary is missing (`FileNotFoundError`), the run times out
(`subprocess.TimeoutExpired`), the `--version` probe exits non-zero, the
detect run produces empty stdout, stdout that is not JSON
(`json.JSONDecodeError`), or a parsed report with some exit code. -/
inductive GitleaksRun where
  | noBinary
  | timeout
  | versionFailed
  | emptyOutput (exitCode : Int)
  | badJson (exitCode : Int)
  | report (exitCode : Int) (items : List GitleaksItem)

/-- `ScanRunner._map_gitleaks_severity`: substring membership of the curated
rule-name sets in the lowercased rule id. -/
def map_gitleaks_severity (ruleId : String) : String :=
  let lower := strLower ruleId
  if ["aws-access-token", "aws-secret-key", "stripe-access-token",
      "private-key", "rsa-private-key", "ssh-private-key",
      "gcp-service-account", "azure-storage-account-key"].any
      (fun r => strContains lower r) then "critical"
  else if ["github-pat", "gitlab-pat", "slack-bot-token", "slack-webhook",
      "google-api-key", "sendgrid-api-token", "twilio-api-key",
      "mailgun-api-key", "square-access-token"].any
      (fun r => strContains lower r) then "high"
  else if ["jwt", "bearer-token", "basic-auth", "api-key-generic"].any
      (fun r => strContains lower r) then "medium"
  else "low"

/-- `ScanRunner._run_gitleaks`: every failure outcome returns the empty
finding list; a parsed report is converted item by item (skipping
allowlisted files) with fixed confidence `0.9`. The exit code of the
`detect` run is never consulted — gitleaks exits `1` when secrets are
found. -/
def run_gitleaks (up : List UserPattern) (outcome : GitleaksRun) : List Finding :=
  match outcome with
  | .report _ items =>
      items.filterMap (fun it =>
        if is_file_allowlisted up (it.file.getD "") then none
        else some { jobId := "", filePath := it.file.getD "",
                    lineNumber := it.startLine.getD 0,
                    secretType := it.ruleID.getD "unknown",
                    secret := it.secret.getD "",
                    severity := map_gitleaks_severity (it.ruleID.getD ""),
                    ruleId := it.ruleID.getD "",
                    confidence := 0.9 })
  | _ => []

/-! ## The standalone wrapper `scanners/run_gitleaks.py` -/

/-- One parsed record of the wrapper's standard format (`_parse_results`);
the commit-metadata fields it copies (`author`, `email`, `commit`, `date`,
`description`, `column`) do not affect any claim and are not modelled. -/
structure GitleaksWrapperFinding where
  file : String
  line : Nat
  typ : String
  secret : String
  severity : String
  scanner : String
deriving DecidableEq, Repr

/-- Outcomes of `GitleaksScanner.scan_directory`'s subprocess/report
interaction: timeout, missing binary, any other exception, report file
absent, or a report file whose content is empty / invalid JSON (`none`) or
parses (`some items`). -/
inductive GitleaksWrapperRun where
  | timeout
  | notFound
  | otherError
  | reportMissing (exitCode : Int)
  | ran (exitCode : Int) (reportContent : Option (List GitleaksItem))

/-- `GitleaksScanner._map_severity` (the wrapper's own, different lists). -/
def wrapper_map_severity (ruleId : String) : String :=
  let lower := strLower ruleId
  if ["aws-access-key", "aws-secret-access-key", "gcp-service-account",
      "stripe-access-token", "private-key", "rsa-private-key"].any
      (fun r => strContains lower r) then "critical"
  else if ["github-token", "gitlab-token", "slack-token",
      "discord-token", "telegram-token"].any
      (fun r => strContains lower r) then "high"
  else if ["jwt", "generic-api-key", "url-secret"].any
      (fun r => strContains lower r) then "medium"
  else "low"

/-- `GitleaksScanner.scan_directory` (`scanners/run_gitleaks.py`): a
timeout, a missing binary, or any other exception yields `[]`; so does a
missing/empty/unparseable report; a parsed report maps through
`_parse_results`. The process exit code is ignored entirely. -/
def gitleaks_scanner_scan_directory : GitleaksWrapperRun → List GitleaksWrapperFinding
  | .timeout => []
  | .notFound => []
  | .otherError => []
  | .reportMissing _ => []
  | .ran _ none => []
  | .ran _ (some items) =>
      items.map (fun it =>
        { file := it.file.getD "", line := it.startLine.getD 0,
          typ := it.ruleID.getD "unknown", secret := it.secret.getD "",
          severity := wrapper_map_severity (it.ruleID.getD ""),
          scanner := "gitleaks" })

/-! ## Allowlist filtering and `ScanRunner.scan_directory` -/

/-- The loaded allowlist YAML (`rules/allowlist.yaml`): `none` models a
falsy dict (missing/empty file, the `if not allowlist` early return);
otherwise the `files` / `secrets` / `rules` entries. -/
structure AllowlistCfg where
  files : List UserPattern
  secrets : List UserPattern
  rules : List String

/-- One `for pattern in …: if re.search(pattern, s): return True` loop of
`is_in_allowlist`: patterns are tried in order; an invalid pattern makes
`re.search` raise `re.error` (`.error ()`), which `is_in_allowlist` does not
catch. -/
def searchFirst (pats : List UserPattern) (s : String) : Except Unit Bool :=
  match pats with
  | [] => .ok false
  | p :: rest =>
    if ¬ p.valid then .error ()
    else if p.searchTrue s then .ok true
    else searchFirst rest s

/-- `is_in_allowlist` from `services/redact.py`: file patterns against the
finding's path, then secret patterns against its text, then rule-id
exclusion. `.error ()` is an escaped `re.error`. -/
def is_in_allowlist (f : Finding) (allowlist : Option AllowlistCfg) :
    Except Unit Bool :=
  match allowlist with
  | none => .ok false
  | some cfg =>
    match searchFirst cfg.files f.filePath with
    | .error e => .error e
    | .ok true => .ok true
    | .ok false =>
      match searchFirst cfg.secrets f.secret with
      | .error e => .error e
      | .ok true => .ok true
      | .ok false => .ok (cfg.rules.contains f.ruleId)

/-- The filtering loop of `ScanRunner.scan_directory` (lines 107–126): a
finding is kept iff the allowlist check **raises** (the `except` branch
appends the finding — "Include finding if filtering fails"), or it is not
allowlisted and its confidence is not below `min_confidence`. -/
def keepFinding (allowlist : Option AllowlistCfg) (minConfidence : ℚ)
    (f : Finding) : Bool :=
  match is_in_allowlist f allowlist with
  | .error _ => true
  | .ok true => false
  | .ok false => decide (¬ (f.confidence < minConfidence))

def filterFindings (allowlist : Option AllowlistCfg) (minConfidence : ℚ)
    (findings : List Finding) : List Finding :=
  findings.filter (keepFinding allowlist minConfidence)

def allowlistFilePats : Option AllowlistCfg → List UserPattern
  | none => []
  | some cfg => cfg.files

/-- `\x7b**default_patterns, **self.patterns\x7d`: custom rules override
same-id defaults in place and new ids are appended in order. -/
def mergePatterns (defaults custom : List RegexRule) : List RegexRule :=
  (defaults.map (fun d =>
    match custom.find? (fun c => c.id == d.id) with
    | some c => c
    | none => d))
  ++ custom.filter (fun c => defaults.all (fun d => ¬ (d.id == c.id)))

/-- `ScanRunner.scan_directory`: gitleaks findings then regex findings,
then the allowlist / minimum-confidence filter. `ScanRunner.__init__` sets
`min_confidence = 0.7`; the claims below pass it explicitly. -/
def scan_directory (allowlist : Option AllowlistCfg) (minConfidence : ℚ)
    (customPatterns : List RegexRule) (gitleaksOutcome : GitleaksRun)
    (fs : String → Option Nat) (cwd directory : String) (entries : FsTree) :
    List Finding :=
  filterFindings allowlist minConfidence
    (run_gitleaks (allowlistFilePats allowlist) gitleaksOutcome
      ++ run_regex_scan (allowlistFilePats allowlist)
          (mergePatterns default_patterns customPatterns) fs cwd directory entries)

/-- An allowlist is valid when every file and secret pattern compiled. -/
def allowlistPatternsValid : Option AllowlistCfg → Bool
  | none => true
  | some cfg => cfg.files.all (fun p => p.valid) && cfg.secrets.all (fun p => p.valid)

/-! ## Repository monitor (`repository_scanner.py`, `scheduler.py`) -/

inductive RepoStatus where
  | active
  | inactive
  | error
deriving DecidableEq, Repr

/-- The monitor-relevant fields of a `Repository` row. `update_scan_status`
(`storage/repositories.py`) writes `last_scan` and `last_scan_status`;
nothing ever writes "running" into `status` — `RepositoryStatus` has no such
member. Timestamps are minutes as naturals. -/
structure MonRepo where
  id : String
  name : String
  status : RepoStatus
  lastScan : Option Nat
  lastScanStatus : Option String
deriving DecidableEq, Repr

inductive ScanStatus where
  | pending
  | running
  | completed
  | failed
deriving DecidableEq, Repr

/-- A `ScanJob` row as `scan_repository` creates it: the `filename` is
`f"\x7brepo.name\x7d-\x7btimestamp\x7d"`; there is no repository-id column. -/
structure ScanJobRec where
  id : String
  filename : String
  status : ScanStatus
deriving DecidableEq, Repr

/-- The monitor-visible store: repository rows and scan-job rows. -/
structure MonState where
  repos : List MonRepo
  jobs : List ScanJobRec
deriving DecidableEq, Repr

def findRepo (st : MonState) (repoId : String) : Option MonRepo :=
  st.repos.find? (fun r => r.id == repoId)

/-- `RepositoryRepository.update_scan_status`: sets `last_scan` and
`last_scan_status` of the row (never `status`). -/
def update_scan_status (st : MonState) (repoId statusStr : String)
    (scanTime : Nat) : MonState :=
  { st with repos := st.repos.map (fun r =>
      if r.id == repoId then
        { r with lastScan := some scanTime, lastScanStatus := some statusStr }
      else r) }

/-- The scan-start prefix of `RepositoryScanner.scan_repository` (lines
29–54): look the repository up (absent means no effect), mark
`last_scan_status = "running"` with `last_scan = now`, and create a new
`RUNNING` `ScanJob`. No status check of any kind precedes the start. -/
def scan_repository_start (st : MonState) (repoId : String) (now : Nat)
    (jobId : String) : MonState :=
  match findRepo st repoId with
  | none => st
  | some repo =>
      let st1 := update_scan_status st repoId "running" now
      { st1 with jobs := st1.jobs
          ++ [⟨jobId, repo.name ++ "-" ++ toString now, .running⟩] }

/-- `RepositoryScanner.scan_repository_webhook`: look the repository up,
extract the commit list from the payload, and — when commits are present —
delegate to `scan_repository`. There is no guard against an already-running
scan anywhere on this path. -/
def scan_repository_webhook (st : MonState) (repoId : String)
    (commits : List String) (now : Nat) (jobId : String) : MonState :=
  match findRepo st repoId with
  | none => st
  | some _ =>
      if commits.isEmpty then st
      else scan_repository_start st repoId now jobId

/-- `SchedulerService._should_scan_repository`: only `active` repositories,
and only when there is no previous scan or the last one is strictly older
than 30 minutes. (The repository's `status` is `active` even while a scan
runs — "running" only ever reaches `last_scan_status`.) -/
def should_scan_repository (now : Nat) (repo : MonRepo) : Bool :=
  if repo.status ≠ RepoStatus.active then false
  else
    match repo.lastScan with
    | none => true
    | some t => 30 < now - t

/-- Number of scan jobs currently `RUNNING`. -/
def runningJobCount (st : MonState) : Nat :=
  (st.jobs.filter (fun j => j.status == ScanStatus.running)).length

/-! ## Concrete fixtures used by the claims -/

/-- A file-system size oracle with no stat-able files. -/
def fsNone : String → Option Nat := fun _ => none

/-- A size oracle where the scanned file `fixture/big.env` is 11 MiB
(11534336 bytes, above the 10 MiB cap) and the process working directory
holds no file of that name. -/
def fsBigFixture : String → Option Nat :=
  fun p => if p == "fixture/big.env" then some 11534336 else none

/-- An allowlist whose single file pattern failed to compile (for example
the pattern string `"("`). -/
def invalidPatternAllowlist : Option AllowlistCfg :=
  some ⟨[⟨false, fun _ => false, fun _ => false⟩], [], []⟩

/-- A monitor state with one active repository whose scan is running:
`last_scan_status = "running"` (set at start time 100) and one `RUNNING`
scan job. -/
def c3FixtureState : MonState :=
  { repos := [⟨"r1", "repo-one", .active, some 100, some "running"⟩],
    jobs := [⟨"j1", "repo-one-100", .running⟩] }

/-! ## Theorems -/

theorem redact_secret_eq_mk (s : String) :
    redact_secret s = String.mk (redactL s.toList) := by
  unfold redact_secret redactL
  cases s with
  | mk data =>
    simp only [String.length, String.toList]
    split <;> rfl

theorem redactL_length (l : List Char) : (redactL l).length = l.length := by
  unfold redactL
  by_cases h : l.length ≤ 8
  · simp [h]
  · rw [if_neg h]
    push_neg at h
    simp only [List.length_append, List.length_take, List.length_drop,
      List.length_replicate]
    omega

theorem redactL_long (l : List Char) (h : 8 < l.length) :
    redactL l
      = (l.take 4 ++ List.replicate (l.length - 8) '*') ++ l.drop (l.length - 4) := by
  unfold redactL
  rw [if_neg (by omega), List.append_assoc]

theorem redactL_idem (l : List Char) : redactL (redactL l) = redactL l := by
  by_cases h : l.length ≤ 8
  · have h1 : redactL l = List.replicate l.length '*' := by
      unfold redactL; rw [if_pos h]
    rw [h1]
    unfold redactL
    simp [h]
  · push_neg at h
    have hAB : (l.take 4 ++ List.replicate (l.length - 8) '*').length
        = l.length - 4 := by
      simp only [List.length_append, List.length_take, List.length_replicate]
      omega
    have htake : (redactL l).take 4 = l.take 4 := by
      rw [redactL_long l h, List.take_append_of_le_length (by omega),
        List.take_append_of_le_length (by simp [List.length_take]; omega),
        List.take_take]
      simp
    have hdrop : (redactL l).drop (l.length - 4) = l.drop (l.length - 4) := by
      rw [redactL_long l h]
      calc ((l.take 4 ++ List.replicate (l.length - 8) '*')
              ++ l.drop (l.length - 4)).drop (l.length - 4)
          = ((l.take 4 ++ List.replicate (l.length - 8) '*')
              ++ l.drop (l.length - 4)).drop
              (l.take 4 ++ List.replicate (l.length - 8) '*').length := by
            rw [hAB]
        _ = l.drop (l.length - 4) := List.drop_left _ _
    have hlen : 8 < (redactL l).length := by rw [redactL_length]; omega
    rw [redactL_long (redactL l) hlen, redactL_length, htake, hdrop,
      ← redactL_long l h]

/-- C9: the redaction transform returns the first 4 characters, `*` repeated
`len(s) - 8` times, and the last 4 characters when `len(s) > 8`, and a fully
masked string of the same length when `len(s) ≤ 8`; in particular
`redact("abcd1234") = "********"` and
`redact("AKIA1234567890ABCD12") = "AKIA************CD12"`; and the transform
is idempotent: `redact(redact(s)) = redact(s)` for every `s`. -/
theorem C9_redact_shape_and_idempotent :
    redact_secret "abcd1234" = "********"
    ∧ redact_secret "AKIA1234567890ABCD12" = "AKIA************CD12"
    ∧ (∀ s : String, 8 < s.length →
        redact_secret s = String.mk (s.toList.take 4
          ++ List.replicate (s.length - 8) '*'
          ++ s.toList.drop (s.length - 4)))
    ∧ (∀ s : String, s.length ≤ 8 →
        redact_secret s = String.mk (List.replicate s.length '*'))
    ∧ (∀ s : String, redact_secret (redact_secret s) = redact_secret s) := by
  refine ⟨by decide, by decide, ?_, ?_, ?_⟩
  · intro s h
    unfold redact_secret
    rw [if_neg (by omega)]
  · intro s h
    unfold redact_secret
    rw [if_pos h]
  · intro s
    rw [redact_secret_eq_mk s, redact_secret_eq_mk]
    exact congrArg String.mk (redactL_idem s.toList)

/-- Witness for C9: the two length-conditioned conjuncts applied at the
concrete secrets from the specification. -/
theorem C9_redact_shape_and_idempotent_witness :
    redact_secret "AKIA1234567890ABCD12"
      = String.mk ("AKIA1234567890ABCD12".toList.take 4
        ++ List.replicate ("AKIA1234567890ABCD12".length - 8) '*'
        ++ "AKIA1234567890ABCD12".toList.drop ("AKIA1234567890ABCD12".length - 4))
    ∧ redact_secret "abcd1234" = String.mk (List.replicate "abcd1234".length '*') :=
  ⟨C9_redact_shape_and_idempotent.2.2.1 _ (by decide),
   C9_redact_shape_and_idempotent.2.2.2.1 _ (by decide)⟩

theorem pyFalsyStr_none : pyFalsyStr none = true := rfl

theorem pyFalsyStr_empty : pyFalsyStr (some "") = true := rfl

theorem pyFalsyStr_sha_prefix (x : String) :
    pyFalsyStr (some ("sha256=" ++ x)) = false := by
  cases x with
  | mk d => rfl

theorem pyFalsyStr_ne_empty {s : String} (h : s ≠ "") :
    pyFalsyStr (some s) = false := by
  cases s with
  | mk d =>
    cases d with
    | nil => exact absurd (by rfl) h
    | cons c cs => rfl

theorem sha_prefix_inj {a b : String} (h : "sha256=" ++ a = "sha256=" ++ b) :
    a = b := by
  cases a with | mk la =>
  cases b with | mk lb =>
  have hd := congrArg String.data h
  simp only [String.data_append] at hd
  exact congrArg String.mk (List.append_cancel_left hd)

theorem verify_accepts_only_expected (body : List Nat) (secret : String)
    (sig : Option String)
    (h : verify_github_signature body sig (some secret) = true) :
    sig = some ("sha256=" ++ hexDigest (hmacSha256 (utf8Encode secret) body)) := by
  match sig with
  | none => simp [verify_github_signature, pyFalsyStr_none] at h
  | some s =>
    by_cases hempty : s = ""
    · subst hempty
      simp [verify_github_signature, pyFalsyStr_empty] at h
    · have h1 : pyFalsyStr (some s) = false := pyFalsyStr_ne_empty hempty
      by_cases hsec : pyFalsyStr (some secret) = true
      · simp [verify_github_signature, hsec] at h
      · have h2 : pyFalsyStr (some secret) = false := by
          cases hb : pyFalsyStr (some secret)
          · rfl
          · exact absurd hb hsec
        simp [verify_github_signature, h1, h2, Option.getD] at h
        exact congrArg some h

/-- C10: `_verify_github_signature` is total and fails closed — it is a
pure `Bool`-valued function (totality is by construction in this embedding,
mirroring the `try/except` that converts any raised error into `False`), and
it returns `false` whenever the `X-Hub-Signature-256` header is absent or
empty, or the repository's stored `webhook_secret` is absent or empty; so a
repository with no configured webhook secret can never have a GitHub webhook
accepted. -/
theorem C10_verify_signature_fails_closed (body : List Nat)
    (signature secret : Option String)
    (h : signature = none ∨ signature = some ""
      ∨ secret = none ∨ secret = some "") :
    verify_github_signature body signature secret = false := by
  rcases h with h | h | h | h <;> subst h <;>
    simp [verify_github_signature, pyFalsyStr_none, pyFalsyStr_empty]

/-- Witness for C10 at a concrete input: no header and no stored secret. -/
theorem C10_verify_signature_fails_closed_witness :
    verify_github_signature [] none none = false :=
  C10_verify_signature_fails_closed [] none none (Or.inl rfl)

/-- C5 counterexample: the claimed "accepts if and only if the header equals
`sha256=` followed by the hex HMAC of the body" fails when the stored
`webhook_secret` is the empty string — the header below is exactly the
prescribed value for `secret = ""` and `body = [0x37]`, yet verification
rejects it, because `_verify_github_signature` first fails closed on a falsy
secret (the behaviour claim C10 describes). -/
theorem C5_counterexample_empty_secret :
    verify_github_signature [0x37]
      (some ("sha256=" ++ hexDigest (hmacSha256 (utf8Encode "") [0x37])))
      (some "") = false := by
  have h : pyFalsyStr (some "") = true := pyFalsyStr_empty
  simp [verify_github_signature, h]

/-- C5 (amended): for a nonempty stored secret, GitHub webhook signature
verification accepts a request if and only if its signature header is exactly
`"sha256="` followed by the lowercase hex HMAC-SHA256 of the raw body keyed
by the secret: the prescribed header is accepted; any accepted header equals
the prescribed one; and a mutation of the body or of the secret that changes
the HMAC digest (as any single-byte mutation does, barring a SHA-256
collision) makes the previously accepted header rejected. -/
theorem C5_signature_verification_amended (body : List Nat) (secret : String)
    (hs : secret ≠ "") :
    (verify_github_signature body
        (some ("sha256=" ++ hexDigest (hmacSha256 (utf8Encode secret) body)))
        (some secret) = true)
    ∧ (∀ sig : Option String,
        verify_github_signature body sig (some secret) = true →
        sig = some ("sha256=" ++ hexDigest (hmacSha256 (utf8Encode secret) body)))
    ∧ (∀ (sig : Option String) (body' : List Nat) (secret' : String),
        hexDigest (hmacSha256 (utf8Encode secret') body')
          ≠ hexDigest (hmacSha256 (utf8Encode secret) body) →
        verify_github_signature body sig (some secret) = true →
        verify_github_signature body' sig (some secret') = false) := by
  have h2 : pyFalsyStr (some secret) = false := pyFalsyStr_ne_empty hs
  refine ⟨?_, fun sig h => verify_accepts_only_expected body secret sig h, ?_⟩
  · have h1 := pyFalsyStr_sha_prefix
      (hexDigest (hmacSha256 (utf8Encode secret) body))
    simp [verify_github_signature, h1, h2, Option.getD]
  · intro sig body' secret' hne hacc
    have hsig := verify_accepts_only_expected body secret sig hacc
    subst hsig
    by_cases hs' : secret' = ""
    · subst hs'
      simp [verify_github_signature, pyFalsyStr_empty]
    · have h1 := pyFalsyStr_sha_prefix
        (hexDigest (hmacSha256 (utf8Encode secret) body))
      have h2' : pyFalsyStr (some secret') = false := pyFalsyStr_ne_empty hs'
      have hneq : ("sha256=" ++ hexDigest (hmacSha256 (utf8Encode secret) body))
          ≠ ("sha256=" ++ hexDigest (hmacSha256 (utf8Encode secret') body')) := by
        intro hcontra
        exact hne (sha_prefix_inj hcontra).symm
      simp [verify_github_signature, h1, h2', Option.getD]
      exact hneq

/-- Witness for C5 (amended) at concrete inputs: the valid header for secret
`"k"` and body `[0x31]` is rejected once the body is mutated to `[0x32]`. -/
theorem C5_signature_verification_amended_witness :
    verify_github_signature [0x32]
      (some ("sha256=" ++ hexDigest (hmacSha256 (utf8Encode "k") [0x31])))
      (some "k") = false :=
  (C5_signature_verification_amended [0x31] "k" (by decide)).2.2
    (some ("sha256=" ++ hexDigest (hmacSha256 (utf8Encode "k") [0x31])))
    [0x32] "k" (by decide)
    ((C5_signature_verification_amended [0x31] "k" (by decide)).1)

/-- C4: refuted behaviour — the webhook endpoints do **not** answer `404` for
an unknown repository id or `401` for a failed signature/token check. The
`HTTPException(404)` / `HTTPException(401)` raised inside each handler's
`try` block (visible in the `Try` functions) is caught by the handler's own
blanket `except Exception`, which re-raises `HTTPException(500, "Webhook
processing failed")`; so both conditions surface as `500`. The `200`
acknowledgement for an authenticated request on a known repository does hold
(whether or not a scan is started), as the last two conjuncts show on
concrete inputs, but a valid-signature request whose body is not JSON also
answers `500`. -/
theorem C4_webhook_status_codes :
    githubWebhook none [] (some "sig") (some "push") none = (500, none)
    ∧ githubWebhookTry none [] (some "sig") (some "push") none
        = Except.error 404
    ∧ githubWebhook (some ⟨"repo", some "secret"⟩) [0x31]
        (some "sha256=deadbeef") (some "push") none = (500, none)
    ∧ githubWebhookTry (some ⟨"repo", some "secret"⟩) [0x31]
        (some "sha256=deadbeef") (some "push") none = Except.error 401
    ∧ gitlabWebhook none (some "t") (some "Push Hook") none = (500, none)
    ∧ gitlabWebhookTry none (some "t") (some "Push Hook") none
        = Except.error 404
    ∧ gitlabWebhookTry (some ⟨"repo", some "secret"⟩) (some "wrong")
        (some "Push Hook") none = Except.error 401
    ∧ gitlabWebhook (some ⟨"repo", some "secret"⟩) (some "wrong")
        (some "Push Hook") none = (500, none)
    ∧ githubWebhook (some ⟨"repo", some "secret"⟩) [0x31]
        (some ("sha256=" ++ hexDigest (hmacSha256 (utf8Encode "secret") [0x31])))
        (some "push") (some ⟨"refs/heads/main", ["c1"]⟩)
        = (200, some (.processed "repo" 1))
    ∧ githubWebhook (some ⟨"repo", some "secret"⟩) [0x31]
        (some ("sha256=" ++ hexDigest (hmacSha256 (utf8Encode "secret") [0x31])))
        (some "ping") none = (200, some (.eventIgnored (some "ping")))
    ∧ githubWebhook (some ⟨"repo", some "secret"⟩) [0x31]
        (some ("sha256=" ++ hexDigest (hmacSha256 (utf8Encode "secret") [0x31])))
        (some "push") none = (500, none)
    ∧ gitlabWebhook (some ⟨"repo", some "secret"⟩) (some "secret")
        (some "Push Hook") (some ⟨"refs/heads/main", ["c1", "c2"]⟩)
        = (200, some (.processed "repo" 2)) := by
  decide

unseal Rat.mul Rat.ofScientific Rat.inv Rat.add Rat.sub in
/-- C2 counterexample: scanning a fixture directory whose single file
contains exactly the line `AWS_KEY=AKIA1234567890ABCDEF` (built-in rules
only, empty allowlist, external scanner absent) yields **zero** findings,
not one: the matched key contains the placeholder substrings `123` and
`abc`, each of which multiplies the base confidence 0.95 by 0.1, so the
scorer returns 0.0095, below the 0.3 early-reject bar, and the match is
discarded before it becomes a finding. -/
theorem C2_counterexample_fixture_secret_rejected :
    scan_directory none 0.7 [] .noBinary fsNone "/home/app" "fixture"
      (.file "config.env" "AWS_KEY=AKIA1234567890ABCDEF" .nilFs) = []
    ∧ calculate_adjusted_confidence "AKIA1234567890ABCDEF" "aws_access_key"
        "fixture/config.env" "AWS_KEY=AKIA1234567890ABCDEF" 0.95 = 0.0095
    ∧ ((0.0095 : ℚ) < 0.3) := by
  refine ⟨?_, ?_, by norm_num⟩ <;> decide

unseal Rat.mul Rat.ofScientific Rat.inv Rat.add Rat.sub in
/-- C2 (amended): with a fixture secret that avoids the scorer's placeholder
heuristics — `AWS_KEY=AKIAA1B2C3D4E5F6G7H8`, whose tail is mixed letters
and digits containing neither `123` nor `abc` — the same scan yields exactly
one finding, with severity `critical`, rule id `aws_access_key`, and
confidence 0.95 ≥ 0.9. -/
theorem C2_amended_fixture_one_finding :
    scan_directory none 0.7 [] .noBinary fsNone "/home/app" "fixture"
      (.file "config.env" "AWS_KEY=AKIAA1B2C3D4E5F6G7H8" .nilFs)
      = [⟨"", "fixture/config.env", 1, "aws_access_key", "AKIAA1B2C3D4E5F6G7H8",
          "critical", "aws_access_key", 0.95⟩]
    ∧ ((0.9 : ℚ) ≤ 0.95) := by
  refine ⟨?_, by norm_num⟩
  decide

/-- C3 counterexample: in a state with one repository whose scan is
currently running (`last_scan_status = "running"`, one `RUNNING` scan job),
a webhook-triggered scan with a nonempty commit list starts a second
concurrent `ScanJob` for the same repository — the monitor performs no
status check on the webhook path. -/
theorem C3_counterexample_webhook_starts_second_job :
    runningJobCount c3FixtureState = 1
    ∧ (findRepo c3FixtureState "r1").map MonRepo.lastScanStatus
        = some (some "running")
    ∧ runningJobCount (scan_repository_webhook c3FixtureState "r1" ["c1"] 105 "j2") = 2 := by
  decide

/-- C3 (amended): the scheduled path never starts a scan for a repository
that is not `active`, nor for one whose `last_scan` is at most 30 minutes
old — and since starting a scan writes `last_scan = now`, a repository
whose scan started within the last 30 minutes is not rescheduled. But no
path checks for a *running* scan: a webhook-triggered scan with commits
appends a new `RUNNING` `ScanJob` whatever `last_scan_status` or the
existing jobs say. -/
theorem C3_monitor_guard_amended :
    (∀ (now : Nat) (repo : MonRepo), repo.status ≠ RepoStatus.active →
      should_scan_repository now repo = false)
    ∧ (∀ (now t : Nat) (repo : MonRepo), repo.lastScan = some t → now - t ≤ 30 →
      should_scan_repository now repo = false)
    ∧ (∀ (st : MonState) (repoId : String) (commits : List String) (now : Nat)
        (jobId : String) (repo : MonRepo),
        findRepo st repoId = some repo → commits ≠ [] →
        (scan_repository_webhook st repoId commits now jobId).jobs
          = st.jobs ++ [⟨jobId, repo.name ++ "-" ++ toString now, .running⟩]) := by
  refine ⟨?_, ?_, ?_⟩
  · intro now repo h
    unfold should_scan_repository
    rw [if_pos h]
  · intro now t repo hscan hle
    unfold should_scan_repository
    by_cases hs : repo.status ≠ RepoStatus.active
    · rw [if_pos hs]
    · rw [if_neg hs, hscan]
      simp only [decide_eq_false_iff_not]
      omega
  · intro st repoId commits now jobId repo hfind hne
    unfold scan_repository_webhook
    rw [hfind]
    rw [if_neg (by simpa using hne)]
    unfold scan_repository_start
    rw [hfind]
    rfl

/-- Witness for C3 (amended): an inactive repository is never scheduled; a
repository scanned 5 minutes ago is not rescheduled; the webhook path in the
running-scan fixture appends the new job. -/
theorem C3_monitor_guard_amended_witness :
    should_scan_repository 0 ⟨"r2", "two", .inactive, none, none⟩ = false
    ∧ should_scan_repository 105 ⟨"r1", "repo-one", .active, some 100, some "running"⟩
        = false
    ∧ (scan_repository_webhook c3FixtureState "r1" ["c1"] 105 "j2").jobs
        = c3FixtureState.jobs ++ [⟨"j2", "repo-one-105", .running⟩] :=
  ⟨C3_monitor_guard_amended.1 0 _ (by decide),
   C3_monitor_guard_amended.2.1 105 100 _ (by decide) (by decide),
   by
     have h := C3_monitor_guard_amended.2.2 c3FixtureState "r1" ["c1"] 105 "j2"
       ⟨"r1", "repo-one", .active, some 100, some "running"⟩ (by decide) (by decide)
     simpa using h⟩

unseal Rat.mul Rat.ofScientific Rat.inv Rat.add Rat.sub in
/-- C7: the directory-exclusion half of the claim holds — a subdirectory
whose name is excluded (or begins with `.`) is pruned with its entire
subtree, so a secret planted only inside such a directory is never
reported (shown generally and on a concrete `node_modules` fixture). The
size-cap half is refuted: `_should_scan_file` receives the bare basename
and resolves it against the process working directory, so for the scanned
file `fixture/big.env` of 11534336 bytes (11 MiB > the 10 MiB cap) the
`getsize` probe misses (`FileNotFoundError`, swallowed), the file is
declared scannable, and its secret **is** read and reported. -/
theorem C7_walk_exclusions_and_size_cap :
    (∀ (up : List UserPattern) (ap : List RegexRule) (fs : String → Option Nat)
        (cwd root d : String) (ch next : FsTree), should_skip_directory d = true →
        run_regex_scan up ap fs cwd root (.dir d ch next)
          = run_regex_scan up ap fs cwd root next)
    ∧ (skipDirs.all (fun d => should_skip_directory d) = true
        ∧ ∀ s : String, should_skip_directory ("." ++ s) = true)
    ∧ run_regex_scan [] default_patterns fsNone "/home/app" "fixture"
        (.dir "node_modules"
          (.file "config.env" "AWS_KEY=AKIAA1B2C3D4E5F6G7H8" .nilFs) .nilFs) = []
    ∧ (fsBigFixture "fixture/big.env" = some 11534336
        ∧ 10 * 1024 * 1024 < 11534336
        ∧ should_scan_file "big.env" fsBigFixture "/home/app" = true
        ∧ run_regex_scan [] default_patterns fsBigFixture "/home/app" "fixture"
            (.file "big.env" "AWS_KEY=AKIAA1B2C3D4E5F6G7H8" .nilFs)
            = [⟨"", "fixture/big.env", 1, "aws_access_key", "AKIAA1B2C3D4E5F6G7H8",
                "critical", "aws_access_key", 0.95⟩]) := by
  refine ⟨?_, ⟨by decide, ?_⟩, by decide, by decide⟩
  · intro up ap fs cwd root d ch next h
    simp [run_regex_scan, filesPass, dirsPass, h]
  · intro s
    cases s with
    | mk d =>
      have hpre : strStartsWithS ("." ++ String.mk d) "." = true := by
        show (".".data.isPrefixOf (("." ++ String.mk d).data)) = true
        rw [String.data_append]
        show List.isPrefixOf ['.'] ('.' :: d) = true
        simp [List.isPrefixOf]
      simp [should_skip_directory, hpre]

/-- Witness for C7: the pruning conjunct applied to a concrete excluded
directory name, and the dot-prefix conjunct at `".git"`. -/
theorem C7_walk_exclusions_and_size_cap_witness :
    run_regex_scan [] [] fsNone "/home/app" "r" (.dir "node_modules" .nilFs .nilFs)
      = run_regex_scan [] [] fsNone "/home/app" "r" .nilFs
    ∧ should_skip_directory ("." ++ "git") = true :=
  ⟨C7_walk_exclusions_and_size_cap.1 [] [] fsNone "/home/app" "r" "node_modules"
      .nilFs .nilFs (by decide),
   C7_walk_exclusions_and_size_cap.2.1.2 "git"⟩

/-- C8: an external-scanner failure never aborts the engine run. A missing
gitleaks binary or a subprocess timeout makes `_run_gitleaks` contribute
exactly zero findings; in that case `scan_directory` returns exactly the
filtered internal regex findings (partial results, not a failure); the exit
code of a completed `gitleaks detect` run is never consulted, so a non-zero
exit (gitleaks' "secrets found" signal) is not an error; and the standalone
wrapper `GitleaksScanner.scan_directory` likewise returns an empty list on
timeout, missing binary, or any other exception. -/
theorem C8_external_scanner_failure_partial_results :
    (∀ (up : List UserPattern) (gl : GitleaksRun), gl = .noBinary ∨ gl = .timeout →
        run_gitleaks up gl = [])
    ∧ (∀ (up : List UserPattern) (ec : Int) (items : List GitleaksItem),
        run_gitleaks up (.report ec items) = run_gitleaks up (.report 0 items))
    ∧ (∀ (al : Option AllowlistCfg) (minC : ℚ) (cp : List RegexRule)
        (gl : GitleaksRun) (fs : String → Option Nat) (cwd dir : String) (tr : FsTree),
        gl = .noBinary ∨ gl = .timeout →
        scan_directory al minC cp gl fs cwd dir tr
          = filterFindings al minC (run_regex_scan (allowlistFilePats al)
              (mergePatterns default_patterns cp) fs cwd dir tr))
    ∧ (∀ w : GitleaksWrapperRun, w = .timeout ∨ w = .notFound ∨ w = .otherError →
        gitleaks_scanner_scan_directory w = []) := by
  refine ⟨?_, ?_, ?_, ?_⟩
  · rintro up gl (rfl | rfl) <;> rfl
  · intro up ec items
    rfl
  · rintro al minC cp gl fs cwd dir tr (rfl | rfl) <;>
      simp [scan_directory, run_gitleaks]
  · rintro w (rfl | rfl | rfl) <;> rfl

/-- Witness for C8 at concrete outcomes: missing binary, a timed-out engine
scan over an empty tree, and a timed-out wrapper run. -/
theorem C8_external_scanner_failure_partial_results_witness :
    run_gitleaks [] .noBinary = []
    ∧ scan_directory none 0.7 [] .timeout fsNone "/home/app" "d" .nilFs
        = filterFindings none 0.7 (run_regex_scan (allowlistFilePats none)
            (mergePatterns default_patterns []) fsNone "/home/app" "d" .nilFs)
    ∧ gitleaks_scanner_scan_directory .timeout = [] :=
  ⟨C8_external_scanner_failure_partial_results.1 [] .noBinary (Or.inl rfl),
   C8_external_scanner_failure_partial_results.2.2.1 none 0.7 [] .timeout fsNone
     "/home/app" "d" .nilFs (Or.inr rfl),
   C8_external_scanner_failure_partial_results.2.2.2 .timeout (Or.inl rfl)⟩

theorem searchFirst_isOk (pats : List UserPattern) (s : String)
    (h : pats.all (fun p => p.valid) = true) : ∃ b, searchFirst pats s = .ok b := by
  induction pats with
  | nil => exact ⟨false, rfl⟩
  | cons p rest ih =>
    rw [List.all_cons, Bool.and_eq_true] at h
    obtain ⟨hp, hrest⟩ := h
    unfold searchFirst
    rw [if_neg (not_not_intro hp)]
    by_cases hm : p.searchTrue s = true
    · rw [if_pos hm]
      exact ⟨true, rfl⟩
    · rw [if_neg hm]
      exact ih hrest

theorem is_in_allowlist_isOk (f : Finding) (al : Option AllowlistCfg)
    (h : allowlistPatternsValid al = true) : ∃ b, is_in_allowlist f al = .ok b := by
  match al with
  | none => exact ⟨false, rfl⟩
  | some cfg =>
    rw [allowlistPatternsValid, Bool.and_eq_true] at h
    obtain ⟨h1, h2⟩ := h
    obtain ⟨b1, hb1⟩ := searchFirst_isOk cfg.files f.filePath h1
    obtain ⟨b2, hb2⟩ := searchFirst_isOk cfg.secrets f.secret h2
    unfold is_in_allowlist
    dsimp only
    rw [hb1]
    cases b1 with
    | true => exact ⟨true, rfl⟩
    | false =>
      rw [hb2]
      cases b2 with
      | true => exact ⟨true, rfl⟩
      | false => exact ⟨cfg.rules.contains f.ruleId, rfl⟩

theorem keepFinding_conf (al : Option AllowlistCfg) (minC : ℚ) (f : Finding)
    (hval : allowlistPatternsValid al = true) (h : keepFinding al minC f = true) :
    minC ≤ f.confidence := by
  obtain ⟨b, hb⟩ := is_in_allowlist_isOk f al hval
  unfold keepFinding at h
  rw [hb] at h
  cases b with
  | true => simp at h
  | false =>
    simp only [decide_eq_true_eq] at h
    exact le_of_not_lt h

theorem keepFinding_mono (al : Option AllowlistCfg) {t1 t2 : ℚ} (hle : t1 ≤ t2)
    (f : Finding) (h : keepFinding al t2 f = true) : keepFinding al t1 f = true := by
  unfold keepFinding at h ⊢
  cases hia : is_in_allowlist f al with
  | error e => rfl
  | ok b =>
    rw [hia] at h
    cases b with
    | true => simp at h
    | false =>
      simp only [decide_eq_true_eq] at h ⊢
      exact fun hlt => h (lt_of_lt_of_le hlt hle)

theorem filter_sublist_mono {α : Type} (l : List α) (p q : α → Bool)
    (h : ∀ a, p a = true → q a = true) : (l.filter p).Sublist (l.filter q) := by
  induction l with
  | nil => simp
  | cons a t ih =>
    by_cases hp : p a = true
    · rw [List.filter_cons_of_pos hp, List.filter_cons_of_pos (h a hp)]
      exact ih.cons₂ a
    · rw [List.filter_cons_of_neg (by simpa using hp)]
      by_cases hq : q a = true
      · rw [List.filter_cons_of_pos hq]
        exact ih.cons a
      · rw [List.filter_cons_of_neg (by simpa using hq)]
        exact ih

unseal Rat.mul Rat.ofScientific Rat.inv Rat.add Rat.sub in
/-- C1 counterexample: a finding with confidence 0.5 — below the 0.7
acceptance threshold — **does** appear in the final result set of
`scan_directory` when the allowlist contains an invalid regex: the
uncaught `re.error` in `is_in_allowlist` sends the filtering loop into its
`except` branch, which appends the finding without ever checking its
confidence. -/
theorem C1_counterexample_invalid_allowlist_bypasses_threshold :
    scan_directory invalidPatternAllowlist 0.7 [] .noBinary fsNone "/home/app" "d"
      (.file "app.py" "api_key=QWERTY9876543210QQ" .nilFs)
      = [⟨"", "d/app.py", 1, "generic_api_key", "api_key=QWERTY9876543210QQ",
          "medium", "generic_api_key", 0.5⟩]
    ∧ ((0.5 : ℚ) < 0.7) := by
  refine ⟨by decide, by norm_num⟩

/-- C1 (amended): provided every allowlist pattern is valid (so allowlist
evaluation never raises), a finding whose confidence is below the acceptance
threshold never appears in the result set of `scan_directory`; and —
without any proviso — raising the threshold is monotonic: the result list
at a higher threshold is a sublist (so a subset, with fewer or equal
findings) of the result list at a lower threshold. -/
theorem C1_acceptance_threshold_amended :
    (∀ (al : Option AllowlistCfg) (minC : ℚ) (cp : List RegexRule)
        (gl : GitleaksRun) (fs : String → Option Nat) (cwd dir : String)
        (tr : FsTree) (f : Finding),
        allowlistPatternsValid al = true →
        f ∈ scan_directory al minC cp gl fs cwd dir tr →
        minC ≤ f.confidence)
    ∧ (∀ (al : Option AllowlistCfg) (t1 t2 : ℚ) (cp : List RegexRule)
        (gl : GitleaksRun) (fs : String → Option Nat) (cwd dir : String)
        (tr : FsTree), t1 ≤ t2 →
        (scan_directory al t2 cp gl fs cwd dir tr).Sublist
          (scan_directory al t1 cp gl fs cwd dir tr)) := by
  constructor
  · intro al minC cp gl fs cwd dir tr f hval hmem
    unfold scan_directory filterFindings at hmem
    rw [List.mem_filter] at hmem
    exact keepFinding_conf al minC f hval hmem.2
  · intro al t1 t2 cp gl fs cwd dir tr hle
    unfold scan_directory filterFindings
    exact filter_sublist_mono _ _ _ (keepFinding_mono al hle)

unseal Rat.mul Rat.ofScientific Rat.inv Rat.add Rat.sub in
/-- Witness for C1 (amended) at a concrete scan: with a valid (absent)
allowlist and threshold 0.3, the 0.5-confidence finding in the result set
is indeed above the threshold; and the 0.7-threshold result list is a
sublist of the 0.3-threshold one. -/
theorem C1_acceptance_threshold_amended_witness :
    (0.3 : ℚ) ≤ (Finding.mk "" "d/app.py" 1 "generic_api_key"
        "api_key=QWERTY9876543210QQ" "medium" "generic_api_key" 0.5).confidence
    ∧ (scan_directory none 0.7 [] .noBinary fsNone "/home/app" "d"
        (.file "app.py" "api_key=QWERTY9876543210QQ" .nilFs)).Sublist
      (scan_directory none 0.3 [] .noBinary fsNone "/home/app" "d"
        (.file "app.py" "api_key=QWERTY9876543210QQ" .nilFs)) :=
  ⟨C1_acceptance_threshold_amended.1 none 0.3 [] .noBinary fsNone "/home/app" "d"
      (.file "app.py" "api_key=QWERTY9876543210QQ" .nilFs) _ (by decide) (by decide),
   C1_acceptance_threshold_amended.2 none 0.3 0.7 [] .noBinary fsNone "/home/app" "d"
      (.file "app.py" "api_key=QWERTY9876543210QQ" .nilFs) (by norm_num)⟩

theorem calc_conf_bounds (m rid fp line : String) (base : ℚ) :
    0 ≤ calculate_adjusted_confidence m rid fp line base
    ∧ calculate_adjusted_confidence m rid fp line base ≤ 1 := by
  unfold calculate_adjusted_confidence
  exact ⟨le_max_left 0 _, max_le (by norm_num) (min_le_left 1 _)⟩

theorem scanLine_conf_bounds (ap : List RegexRule) (fp : String) (n : Nat)
    (line : String) (f : Finding) (h : f ∈ scanLine ap fp n line) :
    0 ≤ f.confidence ∧ f.confidence ≤ 1 := by
  unfold scanLine at h
  rw [List.mem_flatten] at h
  obtain ⟨l, hl, hfl⟩ := h
  rw [List.mem_map] at hl
  obtain ⟨rule, -, rfl⟩ := hl
  rw [List.mem_filterMap] at hfl
  obtain ⟨m, -, hm⟩ := hfl
  dsimp only at hm
  split at hm
  · cases hm
  · split at hm
    · cases hm
    · cases hm
      exact calc_conf_bounds _ _ _ _ _

theorem scan_file_conf_bounds (fp content : String) (ap : List RegexRule)
    (f : Finding) (h : f ∈ scan_file fp content ap) :
    0 ≤ f.confidence ∧ f.confidence ≤ 1 := by
  unfold scan_file at h
  rw [List.mem_flatten] at h
  obtain ⟨l, hl, hfl⟩ := h
  rw [List.mem_map] at hl
  obtain ⟨pr, -, rfl⟩ := hl
  exact scanLine_conf_bounds ap fp (pr.1 + 1) (String.mk pr.2) f hfl

theorem fileEntry_conf_bounds (up : List UserPattern) (ap : List RegexRule)
    (fs : String → Option Nat) (cwd root nm content : String) (f : Finding)
    (h : f ∈ fileEntryFindings up ap fs cwd root nm content) :
    0 ≤ f.confidence ∧ f.confidence ≤ 1 := by
  unfold fileEntryFindings at h
  split at h
  · cases h
  · dsimp only at h
    split at h
    · cases h
    · exact scan_file_conf_bounds _ _ _ f h

theorem filesPass_conf_bounds (up : List UserPattern) (ap : List RegexRule)
    (fs : String → Option Nat) (cwd root : String) (t : FsTree) (f : Finding)
    (h : f ∈ filesPass up ap fs cwd root t) :
    0 ≤ f.confidence ∧ f.confidence ≤ 1 := by
  induction t with
  | nilFs => cases h
  | file nm content next ih =>
    rw [filesPass, List.mem_append] at h
    cases h with
    | inl h => exact fileEntry_conf_bounds up ap fs cwd root nm content f h
    | inr h => exact ih h
  | dir d ch next ih1 ih2 =>
    rw [filesPass] at h
    exact ih2 h

theorem dirsPass_conf_bounds (up : List UserPattern) (ap : List RegexRule)
    (fs : String → Option Nat) (cwd : String) (root : String) (t : FsTree)
    (f : Finding) (h : f ∈ dirsPass up ap fs cwd root t) :
    0 ≤ f.confidence ∧ f.confidence ≤ 1 := by
  induction t generalizing root with
  | nilFs => cases h
  | file nm content next ih =>
    rw [dirsPass] at h
    exact ih root h
  | dir d ch next ih1 ih2 =>
    rw [dirsPass, List.mem_append] at h
    cases h with
    | inl h =>
      split at h
      · cases h
      · rw [List.mem_append] at h
        cases h with
        | inl h => exact filesPass_conf_bounds up ap fs cwd _ ch f h
        | inr h => exact ih1 _ h
    | inr h => exact ih2 root h

theorem run_regex_scan_conf_bounds (up : List UserPattern) (ap : List RegexRule)
    (fs : String → Option Nat) (cwd dir : String) (t : FsTree) (f : Finding)
    (h : f ∈ run_regex_scan up ap fs cwd dir t) :
    0 ≤ f.confidence ∧ f.confidence ≤ 1 := by
  unfold run_regex_scan at h
  rw [List.mem_append] at h
  cases h with
  | inl h => exact filesPass_conf_bounds up ap fs cwd dir t f h
  | inr h => exact dirsPass_conf_bounds up ap fs cwd dir t f h

theorem run_gitleaks_conf_fixed (up : List UserPattern) (gl : GitleaksRun)
    (f : Finding) (h : f ∈ run_gitleaks up gl) : f.confidence = 0.9 := by
  cases gl with
  | report ec items =>
    unfold run_gitleaks at h
    rw [List.mem_filterMap] at h
    obtain ⟨it, -, hit⟩ := h
    split at hit
    · cases hit
    · cases hit
      rfl
  | noBinary => cases h
  | timeout => cases h
  | versionFailed => cases h
  | emptyOutput ec => cases h
  | badJson ec => cases h

/-- C6: every confidence the detection engine produces lies in `[0, 1]`:
the scorer's result is clamped for any match, rule, file, line and base
confidence (including the ×1.1 declaration bonus and every other penalty
combination); every external gitleaks finding carries the fixed confidence
0.9; and every finding in the final `scan_directory` result set has
`0 ≤ confidence ≤ 1`. -/
theorem C6_confidence_clamped_to_unit_interval :
    (∀ (m rid fp line : String) (base : ℚ),
        0 ≤ calculate_adjusted_confidence m rid fp line base
        ∧ calculate_adjusted_confidence m rid fp line base ≤ 1)
    ∧ (∀ (up : List UserPattern) (gl : GitleaksRun) (f : Finding),
        f ∈ run_gitleaks up gl →
        f.confidence = 0.9 ∧ 0 ≤ f.confidence ∧ f.confidence ≤ 1)
    ∧ (∀ (al : Option AllowlistCfg) (minC : ℚ) (cp : List RegexRule)
        (gl : GitleaksRun) (fs : String → Option Nat) (cwd dir : String)
        (tr : FsTree) (f : Finding),
        f ∈ scan_directory al minC cp gl fs cwd dir tr →
        0 ≤ f.confidence ∧ f.confidence ≤ 1) := by
  refine ⟨calc_conf_bounds, ?_, ?_⟩
  · intro up gl f h
    have h9 := run_gitleaks_conf_fixed up gl f h
    rw [h9]
    refine ⟨rfl, by norm_num, by norm_num⟩
  · intro al minC cp gl fs cwd dir tr f h
    unfold scan_directory filterFindings at h
    rw [List.mem_filter, List.mem_append] at h
    cases h.1 with
    | inl hg =>
      have h9 := run_gitleaks_conf_fixed _ gl f hg
      rw [h9]
      exact ⟨by norm_num, by norm_num⟩
    | inr hr => exact run_regex_scan_conf_bounds _ _ fs cwd dir tr f hr

unseal Rat.mul Rat.ofScientific Rat.inv Rat.add Rat.sub in
/-- Witness for C6 at concrete findings: a gitleaks-report finding and the
one finding of the amended C2 fixture scan. -/
theorem C6_confidence_clamped_to_unit_interval_witness :
    ((Finding.mk "" "a.txt" 3 "aws-access-token" "AKIA" "critical"
        "aws-access-token" 0.9).confidence = 0.9
      ∧ 0 ≤ (Finding.mk "" "a.txt" 3 "aws-access-token" "AKIA" "critical"
        "aws-access-token" 0.9).confidence
      ∧ (Finding.mk "" "a.txt" 3 "aws-access-token" "AKIA" "critical"
        "aws-access-token" 0.9).confidence ≤ 1)
    ∧ (0 ≤ (Finding.mk "" "fixture/config.env" 1 "aws_access_key"
        "AKIAA1B2C3D4E5F6G7H8" "critical" "aws_access_key" 0.95).confidence
      ∧ (Finding.mk "" "fixture/config.env" 1 "aws_access_key"
        "AKIAA1B2C3D4E5F6G7H8" "critical" "aws_access_key" 0.95).confidence ≤ 1) :=
  ⟨C6_confidence_clamped_to_unit_interval.2.1 []
      (.report 1 [⟨some "a.txt", some 3, some "aws-access-token", some "AKIA"⟩])
      _ (by decide),
   C6_confidence_clamped_to_unit_interval.2.2 none 0.7 [] .noBinary fsNone
      "/home/app" "fixture"
      (.file "config.env" "AWS_KEY=AKIAA1B2C3D4E5F6G7H8" .nilFs) _ (by decide)⟩
